import Mathlib

/-!
Shallow embedding of the Verisume upload-and-analyze pipeline
(`src/app/routes/upload.tsx`).

The pipeline (`handleAnalyze`) is a straight-line sequence of awaited
external calls: upload the original file, rasterize the PDF, upload the
rasterized image, write a provisional record to the KV store, request AI
feedback, parse the critique text, write the final record, navigate.
We model the outcomes of the external calls as an environment `Env`, and
`handleAnalyze` as a pure function from the environment and the form
inputs to the resulting UI state (status text, processing flag,
navigation target) together with the ordered trace of external calls it
issued.  `handleSubmit` is the validation guard in front of it.

`JSON.parse` is modelled by `parseJson`, a fuel-based recursive-descent
JSON reader; numbers are modelled as integers and unicode escapes are
out of scope (the critique payloads in the claims are integral and
ASCII).  A thrown exception (`JSON.parse` failure, or indexing `[0]`
into an empty content array) lands in the `catch` branch of the source,
modelled by the branches producing the generic
"Error: Something went wrong during analysis" state.
-/

/-- JSON values, the result of parsing the critique text.  Numbers are
modelled as integers. -/
inductive Json where
  | jnull : Json
  | jbool : Bool → Json
  | jnum : Int → Json
  | jstr : String → Json
  | jarr : List Json → Json
  | jobj : List (String × Json) → Json
deriving Repr

/-- Skip JSON whitespace. -/
def skipWs : List Char → List Char
  | [] => []
  | c :: cs => if c = ' ' ∨ c = '\n' ∨ c = '\t' ∨ c = '\r' then skipWs cs else c :: cs

/-- Read the body of a JSON string literal (the opening quote already
consumed), returning the decoded characters and the remaining input. -/
def parseStrChars : List Char → Option (List Char × List Char)
  | [] => none
  | '"' :: rest => some ([], rest)
  | '\\' :: e :: rest =>
    (match e with
     | '"' => some '"'
     | '\\' => some '\\'
     | '/' => some '/'
     | 'n' => some '\n'
     | 't' => some '\t'
     | 'r' => some '\r'
     | 'b' => some (Char.ofNat 8)
     | 'f' => some (Char.ofNat 12)
     | _ => none).bind fun c =>
      (parseStrChars rest).map fun (p : List Char × List Char) => (c :: p.1, p.2)
  | c :: rest => (parseStrChars rest).map fun p => (c :: p.1, p.2)

/-- Take a maximal run of decimal digits. -/
def takeDigits : List Char → (List Char × List Char)
  | [] => ([], [])
  | c :: cs =>
    if c.isDigit then
      let p := takeDigits cs
      (c :: p.1, p.2)
    else ([], c :: cs)

/-- Value of a digit run. -/
def digitsToNat (ds : List Char) : Nat :=
  ds.foldl (fun acc c => acc * 10 + (c.toNat - 48)) 0

/-- Read a JSON integer (optional leading minus). -/
def parseNum : List Char → Option (Int × List Char)
  | '-' :: cs =>
    let p := takeDigits cs
    if p.1 = [] then none else some (-(digitsToNat p.1 : Int), p.2)
  | cs =>
    let p := takeDigits cs
    if p.1 = [] then none else some ((digitsToNat p.1 : Int), p.2)

/-- Drop an expected literal character sequence. -/
def dropLit : List Char → List Char → Option (List Char)
  | [], cs => some cs
  | l :: ls, c :: cs => if c = l then dropLit ls cs else none
  | _ :: _, [] => none

/-- Parsing mode: a whole value, or the tail of an array or object whose
already-parsed members are accumulated. -/
inductive PMode where
  | value : PMode
  | arrTail : List Json → PMode
  | objTail : List (String × Json) → PMode

/-- Fuel-based recursive-descent JSON reader.  Returns the parsed value
and the remaining input. -/
def parseVal : Nat → PMode → List Char → Option (Json × List Char)
  | 0, _, _ => none
  | Nat.succ f, PMode.value, cs =>
    match skipWs cs with
    | [] => none
    | 'n' :: rest => (dropLit [ 'u', 'l', 'l'] rest).map fun r => (Json.jnull, r)
    | 't' :: rest => (dropLit [ 'r', 'u', 'e'] rest).map fun r => (Json.jbool true, r)
    | 'f' :: rest => (dropLit [ 'a', 'l', 's', 'e'] rest).map fun r => (Json.jbool false, r)
    | '"' :: rest => (parseStrChars rest).map fun p => (Json.jstr (String.mk p.1), p.2)
    | '[' :: rest =>
      (match skipWs rest with
       | ']' :: r2 => some (Json.jarr [], r2)
       | r2 =>
         match parseVal f PMode.value r2 with
         | none => none
         | some jr => parseVal f (PMode.arrTail [jr.1]) jr.2)
    | '{' :: rest =>
      (match skipWs rest with
       | '}' :: r2 => some (Json.jobj [], r2)
       | '"' :: r2 =>
         match parseStrChars r2 with
         | none => none
         | some kp =>
           match skipWs kp.2 with
           | ':' :: r4 =>
             (match parseVal f PMode.value r4 with
              | none => none
              | some vr => parseVal f (PMode.objTail [(String.mk kp.1, vr.1)]) vr.2)
           | _ => none
       | _ => none)
    | cs2 => (parseNum cs2).map fun p => (Json.jnum p.1, p.2)
  | Nat.succ f, PMode.arrTail acc, cs =>
    match skipWs cs with
    | ']' :: rest => some (Json.jarr acc, rest)
    | ',' :: rest =>
      (match parseVal f PMode.value rest with
       | none => none
       | some jr => parseVal f (PMode.arrTail (acc ++ [jr.1])) jr.2)
    | _ => none
  | Nat.succ f, PMode.objTail acc, cs =>
    match skipWs cs with
    | '}' :: rest => some (Json.jobj acc, rest)
    | ',' :: rest =>
      (match skipWs rest with
       | '"' :: r2 =>
         match parseStrChars r2 with
         | none => none
         | some kp =>
           match skipWs kp.2 with
           | ':' :: r4 =>
             (match parseVal f PMode.value r4 with
              | none => none
              | some vr => parseVal f (PMode.objTail (acc ++ [(String.mk kp.1, vr.1)])) vr.2)
           | _ => none
       | _ => none)
    | _ => none

/-- Model of `JSON.parse`: parse a complete JSON document; trailing
content other than whitespace is an error. -/
def parseJson (s : String) : Option Json :=
  match parseVal (4 * s.length + 8) PMode.value s.data with
  | some jr => if skipWs jr.2 = [] then some jr.1 else none
  | none => none

/-- Result of `fs.upload` (Blob Store upload): an item with a stable
reference path. -/
structure UploadedFile where
  path : String
deriving Repr, DecidableEq

/-- An in-memory image blob produced by the rasterizer. -/
structure ImageBlob where
  blobName : String
deriving Repr, DecidableEq

/-- Result of `convertPdfToImage`: an object whose `file` field is the
rendered image or null. -/
structure PdfConversionResult where
  file : Option ImageBlob
deriving Repr, DecidableEq

/-- One part of a structured AI message content sequence. -/
structure ContentPart where
  text : String
deriving Repr, DecidableEq

/-- The `content` of an AI response message: a plain string or a
sequence of content parts. -/
inductive MessageContent where
  | str : String → MessageContent
  | parts : List ContentPart → MessageContent
deriving Repr, DecidableEq

/-- The `message` of an AI feedback response. -/
structure FeedbackMessage where
  content : MessageContent
deriving Repr, DecidableEq

/-- Result of a successful `ai.feedback` call. -/
structure FeedbackResp where
  message : FeedbackMessage
deriving Repr, DecidableEq

/-- The record persisted to the KV store (the `data` object of the
source).  `feedback` starts as null and is populated from the parsed
critique. -/
structure Record where
  id : String
  resumePath : String
  imagePath : String
  companyName : String
  jobTitle : String
  jobDescription : String
  feedback : Option Json
deriving Repr

/-- Outcomes of the external calls an invocation of the pipeline can
make: the results of `fs.upload` on the original file, of
`convertPdfToImage`, of `fs.upload` on the image, of `kv.set` on the
provisional record, of `ai.feedback`, of `kv.set` on the final record,
and the identifier produced by `generateUUID`. -/
structure Env where
  fsUploadFileResult : Option UploadedFile
  convertPdfToImageResult : PdfConversionResult
  fsUploadImageResult : Option UploadedFile
  kvSetProvisionalResult : Bool
  aiFeedbackResult : Option FeedbackResp
  kvSetFinalResult : Bool
  uuid : String

/-- The form inputs `handleAnalyze` receives. -/
structure AnalyzeInput where
  companyName : String
  jobTitle : String
  jobDescription : String

/-- An external call issued by the pipeline, in the order issued:
blob-store upload of the original, rasterization, blob-store upload of
the image, a KV write of a record under a key, a feedback request on a
document path. -/
inductive Event where
  | uploadOriginalCall : Event
  | rasterizeCall : Event
  | uploadImageCall : Event
  | kvSetCall : String → Record → Event
  | feedbackCall : String → Event
deriving Repr

/-- The observable outcome of one `handleAnalyze` invocation: the final
status text, the processing flag, the navigation target if any, and the
ordered trace of external calls issued. -/
structure RunResult where
  statusText : String
  isProcessing : Bool
  navigatedTo : Option String
  events : List Event
deriving Repr

/-- Extraction of the critique text from the message content
(`typeof content === 'string' ? content : content[0].text`).  Indexing
`[0]` into an empty sequence throws, modelled as `none`. -/
def extractFeedbackText : MessageContent → Option String
  | MessageContent.str s => some s
  | MessageContent.parts ps => (ps.head?).map fun p => p.text

/-- The `handleAnalyze` pipeline of `src/app/routes/upload.tsx`, as a
function of the external-call outcomes.  Each branch mirrors a guarded
early return of the source; the two `none` cases of text extraction and
JSON parsing mirror a thrown exception reaching the top-level `catch`.
The result of the provisional `kv.set` is not inspected by the source,
so `kvSetProvisionalResult` is never read. -/
def handleAnalyze (env : Env) (inp : AnalyzeInput) : RunResult :=
  let ev1 := [Event.uploadOriginalCall]
  match env.fsUploadFileResult with
  | none =>
    { statusText := "Error: Failed to upload file", isProcessing := false,
      navigatedTo := none, events := ev1 }
  | some uploadedFile =>
    let ev2 := ev1 ++ [Event.rasterizeCall]
    match env.convertPdfToImageResult.file with
    | none =>
      { statusText := "Error: Failed to convert PDF to image", isProcessing := false,
        navigatedTo := none, events := ev2 }
    | some _ =>
      let ev3 := ev2 ++ [Event.uploadImageCall]
      match env.fsUploadImageResult with
      | none =>
        { statusText := "Error: Failed to upload image", isProcessing := false,
          navigatedTo := none, events := ev3 }
      | some uploadedImage =>
        let uuid := env.uuid
        let data : Record :=
          { id := uuid, resumePath := uploadedFile.path,
            imagePath := uploadedImage.path, companyName := inp.companyName,
            jobTitle := inp.jobTitle, jobDescription := inp.jobDescription,
            feedback := none }
        let ev4 := ev3 ++ [Event.kvSetCall ("resume:" ++ uuid) data]
        let ev5 := ev4 ++ [Event.feedbackCall uploadedFile.path]
        match env.aiFeedbackResult with
        | none =>
          { statusText := "Error: Failed to analyze resume", isProcessing := false,
            navigatedTo := none, events := ev5 }
        | some feedback =>
          match extractFeedbackText feedback.message.content with
          | none =>
            { statusText := "Error: Something went wrong during analysis",
              isProcessing := false, navigatedTo := none, events := ev5 }
          | some feedbackText =>
            match parseJson feedbackText with
            | none =>
              { statusText := "Error: Something went wrong during analysis",
                isProcessing := false, navigatedTo := none, events := ev5 }
            | some parsed =>
              let data2 := { data with feedback := some parsed }
              let ev6 := ev5 ++ [Event.kvSetCall ("resume:" ++ uuid) data2]
              { statusText := "Analysis complete, redirecting...", isProcessing := true,
                navigatedTo := some ("/resume/" ++ uuid), events := ev6 }

/-- A selected file, with its name and declared media type. -/
structure FileInfo where
  name : String
  declaredType : String
deriving Repr, DecidableEq

/-- JavaScript whitespace characters trimmed by `String.prototype.trim`
(the ASCII ones; the form fields in scope are ASCII). -/
def isJsSpace (c : Char) : Bool :=
  c = ' ' ∨ c = '\t' ∨ c = '\n' ∨ c = '\r' ∨ c = Char.ofNat 11 ∨ c = Char.ofNat 12

/-- Trim `isJsSpace` characters from both ends. -/
def trimChars (cs : List Char) : List Char :=
  ((cs.dropWhile isJsSpace).reverse.dropWhile isJsSpace).reverse

/-- Model of `String.prototype.trim`. -/
def jsTrim (s : String) : String :=
  String.mk (trimChars s.data)

/-- Outcome of `handleSubmit`: a validation alert (no pipeline run), or
the outcome of the `handleAnalyze` invocation. -/
inductive SubmitOutcome where
  | alerted : String → SubmitOutcome
  | analyzed : RunResult → SubmitOutcome
deriving Repr

/-- External calls issued by a `handleSubmit` outcome: a validation
alert issues none. -/
def submitEvents : SubmitOutcome → List Event
  | SubmitOutcome.alerted _ => []
  | SubmitOutcome.analyzed r => r.events

/-- The `handleSubmit` validation guard of `src/app/routes/upload.tsx`:
each text field must be non-empty after trimming, a file must be
selected, and its declared media type must be `application/pdf`; only
then is `handleAnalyze` invoked. -/
def handleSubmit (env : Env) (companyName jobTitle jobDescription : String)
    (file : Option FileInfo) : SubmitOutcome :=
  if jsTrim companyName = "" then SubmitOutcome.alerted "Please enter a company name"
  else if jsTrim jobTitle = "" then SubmitOutcome.alerted "Please enter a job title"
  else if jsTrim jobDescription = "" then SubmitOutcome.alerted "Please enter a job description"
  else
    match file with
    | none => SubmitOutcome.alerted "Please select a PDF file to upload"
    | some f =>
      if f.declaredType ≠ "application/pdf" then SubmitOutcome.alerted "Please upload a PDF file"
      else SubmitOutcome.analyzed (handleAnalyze env
        { companyName := companyName, jobTitle := jobTitle, jobDescription := jobDescription })

/-- The KV writes of a trace, in order, as key-record pairs. -/
def kvWrites (evs : List Event) : List (String × Record) :=
  evs.filterMap fun e =>
    match e with
    | Event.kvSetCall k v => some (k, v)
    | _ => none

/-- The record retrievable from the KV store under `key` after the
trace ran: the last write to that key, if any. -/
def kvLookup (evs : List Event) (key : String) : Option Record :=
  evs.foldl (fun acc e =>
    match e with
    | Event.kvSetCall k v => if k = key then some v else acc
    | _ => acc) none

/-- The stage number of an external call in the intended linear order;
the provisional KV write (feedback still null) is stage 3, the final
one (feedback populated) stage 5. -/
def eventStage : Event → Nat
  | Event.uploadOriginalCall => 0
  | Event.rasterizeCall => 1
  | Event.uploadImageCall => 2
  | Event.kvSetCall _ v =>
    match v.feedback with
    | none => 3
    | some _ => 5
  | Event.feedbackCall _ => 4

/-- In the trace `evs`, every occurrence of `a` is at a strictly
smaller index than every occurrence of `b`. -/
def eventsBefore (evs : List Event) (a b : Event → Prop) : Prop :=
  ∀ i j x y, evs.get? i = some x → evs.get? j = some y → a x → b y → i < j

/-- Recognizer for rasterization calls. -/
def isRasterize : Event → Prop
  | Event.rasterizeCall => True
  | _ => False

/-- Recognizer for original-file upload calls. -/
def isUploadOriginal : Event → Prop
  | Event.uploadOriginalCall => True
  | _ => False

/-- Recognizer for image upload calls. -/
def isUploadImage : Event → Prop
  | Event.uploadImageCall => True
  | _ => False

/-- Recognizer for feedback requests. -/
def isFeedbackReq : Event → Prop
  | Event.feedbackCall _ => True
  | _ => False

/-- Recognizer for the provisional KV write (feedback still null). -/
def isProvisionalWrite (e : Event) : Prop :=
  eventStage e = 3

/-- Recognizer for the final KV write (feedback populated). -/
def isFinalWrite (e : Event) : Prop :=
  eventStage e = 5

/-- Order asserted by the spec's control-flow narrative: rasterization
before both uploads, both uploads before the provisional write, then
the feedback request, then the final write. -/
def specOrderClaim (evs : List Event) : Prop :=
  eventsBefore evs isRasterize isUploadOriginal
  ∧ eventsBefore evs isRasterize isUploadImage
  ∧ eventsBefore evs isUploadOriginal isProvisionalWrite
  ∧ eventsBefore evs isUploadImage isProvisionalWrite
  ∧ eventsBefore evs isProvisionalWrite isFeedbackReq
  ∧ eventsBefore evs isFeedbackReq isFinalWrite

/-- The provisional record the pipeline builds from the two successful
uploads and the form inputs. -/
def provRec (env : Env) (inp : AnalyzeInput) (uf img : UploadedFile) : Record :=
  { id := env.uuid, resumePath := uf.path, imagePath := img.path,
    companyName := inp.companyName, jobTitle := inp.jobTitle,
    jobDescription := inp.jobDescription, feedback := none }

/-- Error status texts the pipeline can report. -/
def errorMessages : List String :=
  ["Error: Failed to upload file",
   "Error: Failed to convert PDF to image",
   "Error: Failed to upload image",
   "Error: Failed to analyze resume",
   "Error: Something went wrong during analysis"]

/-- Replace the feedback outcome of an environment with a successful
response carrying the given message content. -/
def withContent (env : Env) (c : MessageContent) : Env :=
  { env with aiFeedbackResult := some { message := { content := c } } }

/-- The critique text of the spec's worked example. -/
def scoreJson : String := "\x7b\"score\":80\x7d"

/-- Sample form inputs (the spec's end-to-end scenario). -/
def inpSample : AnalyzeInput :=
  { companyName := "Acme", jobTitle := "Engineer", jobDescription := "Build things" }

/-- Sample selected PDF file. -/
def filePdf : FileInfo :=
  { name := "resume.pdf", declaredType := "application/pdf" }

/-- Environment in which every external call succeeds and the critique
text is the worked example's JSON object. -/
def envAllOk : Env :=
  { fsUploadFileResult := some { path := "p1" },
    convertPdfToImageResult := { file := some { blobName := "img" } },
    fsUploadImageResult := some { path := "p2" },
    kvSetProvisionalResult := true,
    aiFeedbackResult := some { message := { content := MessageContent.str scoreJson } },
    kvSetFinalResult := true,
    uuid := "u1" }

/-- Same as `envAllOk` but the critique arrives as a one-element content
part sequence. -/
def envScoreParts : Env :=
  withContent envAllOk (MessageContent.parts [{ text := scoreJson }])

/-- Environment in which the original-file upload fails. -/
def envUploadFail : Env :=
  { envAllOk with fsUploadFileResult := none }

/-- Environment in which the feedback call fails after both uploads and
the provisional write. -/
def envFeedbackFail : Env :=
  { envAllOk with aiFeedbackResult := none }

/-- Environment in which the provisional KV write reports failure. -/
def envKvFail : Env :=
  { envAllOk with kvSetProvisionalResult := false }

/-- Environment in which the critique text is not valid JSON. -/
def envBadJson : Env :=
  withContent envAllOk (MessageContent.str "not json")

/-- The record of the successful sample run after the final write. -/
def finalRecSample : Record :=
  { id := "u1", resumePath := "p1", imagePath := "p2",
    companyName := "Acme", jobTitle := "Engineer", jobDescription := "Build things",
    feedback := some (Json.jobj [("score", Json.jnum 80)]) }

/-- C1 (validation gate): whenever any of the three text fields is
empty or whitespace-only after trimming, or no file is selected, or the
selected file's declared media type is not `application/pdf`, the
submit handler raises a validation alert and issues zero external calls
(no blob upload, no rasterization, no feedback request, no KV write). -/
theorem c1_validation_gate (env : Env)
    (companyName jobTitle jobDescription : String) (file : Option FileInfo)
    (h : jsTrim companyName = "" ∨ jsTrim jobTitle = "" ∨ jsTrim jobDescription = ""
      ∨ file = none ∨ ∃ f, file = some f ∧ f.declaredType ≠ "application/pdf") :
    (∃ msg, handleSubmit env companyName jobTitle jobDescription file
        = SubmitOutcome.alerted msg)
    ∧ submitEvents (handleSubmit env companyName jobTitle jobDescription file) = [] := by
  by_cases h1 : jsTrim companyName = ""
  · refine ⟨⟨"Please enter a company name", ?_⟩, ?_⟩ <;>
      simp [handleSubmit, h1, submitEvents]
  by_cases h2 : jsTrim jobTitle = ""
  · refine ⟨⟨"Please enter a job title", ?_⟩, ?_⟩ <;>
      simp [handleSubmit, h1, h2, submitEvents]
  by_cases h3 : jsTrim jobDescription = ""
  · refine ⟨⟨"Please enter a job description", ?_⟩, ?_⟩ <;>
      simp [handleSubmit, h1, h2, h3, submitEvents]
  cases file with
  | none =>
    refine ⟨⟨"Please select a PDF file to upload", ?_⟩, ?_⟩ <;>
      simp [handleSubmit, h1, h2, h3, submitEvents]
  | some f =>
    by_cases h4 : f.declaredType = "application/pdf"
    · exfalso
      rcases h with h | h | h | h | ⟨g, hg, hne⟩
      · exact h1 h
      · exact h2 h
      · exact h3 h
      · exact Option.noConfusion h
      · injection hg with hfg
        subst hfg
        exact hne h4
    · refine ⟨⟨"Please upload a PDF file", ?_⟩, ?_⟩ <;>
        simp [handleSubmit, h1, h2, h3, h4, submitEvents]

/-- Witness for C1 at a concrete input: a whitespace-only company name
is rejected with an alert and no external calls. -/
theorem c1_validation_gate_witness :
    (∃ msg, handleSubmit envAllOk "  " "Engineer" "Build things" (some filePdf)
        = SubmitOutcome.alerted msg)
    ∧ submitEvents (handleSubmit envAllOk "  " "Engineer" "Build things" (some filePdf)) = [] :=
  c1_validation_gate envAllOk "  " "Engineer" "Build things" (some filePdf)
    (Or.inl (by decide))

/-- C2 (fail-fast on upload failure): when the blob-store upload of the
original file fails, the only external call in the trace is that upload
(so no rasterization, no image upload, no KV write and no feedback call
occur), the status reports the upload failure, and the pipeline stops
without navigating. -/
theorem c2_upload_fail_fast (env : Env) (inp : AnalyzeInput)
    (h : env.fsUploadFileResult = none) :
    (handleAnalyze env inp).events = [Event.uploadOriginalCall]
    ∧ (handleAnalyze env inp).statusText = "Error: Failed to upload file"
    ∧ (handleAnalyze env inp).navigatedTo = none
    ∧ (handleAnalyze env inp).isProcessing = false := by
  unfold handleAnalyze
  rw [h]
  exact ⟨rfl, rfl, rfl, rfl⟩

/-- Witness for C2 at a concrete environment whose original upload
fails. -/
theorem c2_upload_fail_fast_witness :
    envUploadFail.fsUploadFileResult = none
    ∧ (handleAnalyze envUploadFail inpSample).events = [Event.uploadOriginalCall]
    ∧ (handleAnalyze envUploadFail inpSample).statusText = "Error: Failed to upload file"
    ∧ (handleAnalyze envUploadFail inpSample).navigatedTo = none
    ∧ (handleAnalyze envUploadFail inpSample).isProcessing = false := by
  refine ⟨rfl, ?_⟩
  exact c2_upload_fail_fast envUploadFail inpSample rfl

/-- C3 (critique extraction): a critique arriving as a one-element
sequence of content parts is treated exactly as the same critique
arriving as a plain string (the first part's `text` field is used), and
for the worked example the parsed object with `score` mapped to `80` is
stored as the final record's feedback. -/
theorem c3_critique_extraction (env : Env) (inp : AnalyzeInput) (s : String) :
    handleAnalyze (withContent env (MessageContent.parts [{ text := s }])) inp
      = handleAnalyze (withContent env (MessageContent.str s)) inp
    ∧ kvLookup (handleAnalyze envAllOk inpSample).events "resume:u1"
      = some finalRecSample
    ∧ handleAnalyze envScoreParts inpSample = handleAnalyze envAllOk inpSample := by
  have main : ∀ (env : Env) (inp : AnalyzeInput) (s : String),
      handleAnalyze (withContent env (MessageContent.parts [{ text := s }])) inp
        = handleAnalyze (withContent env (MessageContent.str s)) inp := by
    intro env inp s
    rcases env with ⟨uf, ⟨cf⟩, ui, kv1, fb, kv2, u⟩
    cases uf <;> cases cf <;> cases ui <;> rfl
  refine ⟨main env inp s, by rfl, ?_⟩
  have h := main envAllOk inpSample scoreJson
  exact h

/-- C4 (partial durability): when both uploads and the provisional KV
write succeed and the feedback call then fails, the trace contains
exactly one KV write — the provisional one — so the record retrievable
under `"resume:" + id` has null feedback and all other fields
populated from the uploads and the form inputs, and the failure is
reported. -/
theorem c4_partial_durability (env : Env) (inp : AnalyzeInput)
    (uf img : UploadedFile) (blob : ImageBlob)
    (h1 : env.fsUploadFileResult = some uf)
    (h2 : env.convertPdfToImageResult.file = some blob)
    (h3 : env.fsUploadImageResult = some img)
    (_hkv : env.kvSetProvisionalResult = true)
    (h4 : env.aiFeedbackResult = none) :
    kvWrites (handleAnalyze env inp).events
      = [("resume:" ++ env.uuid, provRec env inp uf img)]
    ∧ kvLookup (handleAnalyze env inp).events ("resume:" ++ env.uuid)
      = some (provRec env inp uf img)
    ∧ (provRec env inp uf img).feedback = none
    ∧ (handleAnalyze env inp).statusText = "Error: Failed to analyze resume"
    ∧ (handleAnalyze env inp).navigatedTo = none := by
  unfold handleAnalyze
  rw [h1, h2, h3, h4]
  refine ⟨rfl, ?_, rfl, rfl, rfl⟩
  simp [kvLookup, provRec]

/-- Witness for C4 at a concrete environment whose feedback call
fails. -/
theorem c4_partial_durability_witness :
    envFeedbackFail.aiFeedbackResult = none
    ∧ envFeedbackFail.kvSetProvisionalResult = true
    ∧ kvLookup (handleAnalyze envFeedbackFail inpSample).events "resume:u1"
      = some (provRec envFeedbackFail inpSample { path := "p1" } { path := "p2" })
    ∧ (handleAnalyze envFeedbackFail inpSample).statusText
      = "Error: Failed to analyze resume" := by
  have h := c4_partial_durability envFeedbackFail inpSample
    { path := "p1" } { path := "p2" } { blobName := "img" } rfl rfl rfl rfl rfl
  exact ⟨rfl, rfl, h.2.1, h.2.2.2.1⟩

/-- C5 (monotonic record construction): on a fully successful run the
trace contains exactly two KV writes, both under the key
`"resume:" + id`; the first stores the provisional record (null
feedback) and the second stores the very same record with only the
`feedback` field replaced by the parsed critique. -/
theorem c5_monotonic_record (env : Env) (inp : AnalyzeInput)
    (uf img : UploadedFile) (blob : ImageBlob) (fb : FeedbackResp)
    (t : String) (j : Json)
    (h1 : env.fsUploadFileResult = some uf)
    (h2 : env.convertPdfToImageResult.file = some blob)
    (h3 : env.fsUploadImageResult = some img)
    (h4 : env.aiFeedbackResult = some fb)
    (h5 : extractFeedbackText fb.message.content = some t)
    (h6 : parseJson t = some j) :
    kvWrites (handleAnalyze env inp).events
      = [("resume:" ++ env.uuid, provRec env inp uf img),
         ("resume:" ++ env.uuid, { provRec env inp uf img with feedback := some j })]
    ∧ (provRec env inp uf img).feedback = none := by
  unfold handleAnalyze
  simp only [h1, h2, h3, h4, h5, h6]
  exact ⟨rfl, rfl⟩

/-- Witness for C5 at the all-successful sample environment. -/
theorem c5_monotonic_record_witness :
    envAllOk.fsUploadFileResult = some { path := "p1" }
    ∧ parseJson scoreJson = some (Json.jobj [("score", Json.jnum 80)])
    ∧ kvWrites (handleAnalyze envAllOk inpSample).events
      = [("resume:u1", provRec envAllOk inpSample { path := "p1" } { path := "p2" }),
         ("resume:u1", { provRec envAllOk inpSample { path := "p1" } { path := "p2" } with
            feedback := some (Json.jobj [("score", Json.jnum 80)]) })] := by
  have h := c5_monotonic_record envAllOk inpSample
    { path := "p1" } { path := "p2" } { blobName := "img" }
    { message := { content := MessageContent.str scoreJson } }
    scoreJson (Json.jobj [("score", Json.jnum 80)]) rfl rfl rfl rfl rfl rfl
  exact ⟨rfl, rfl, h.1⟩

/-- C6 counterexample: on the fully successful sample run the pipeline
uploads the original file (index 0) before rasterizing (index 1), so
the claimed order — rasterization before the upload of the original
file — is false. -/
theorem c6_counterexample :
    ¬ specOrderClaim (handleAnalyze envAllOk inpSample).events := by
  intro hc
  have h := hc.1 1 0 Event.rasterizeCall Event.uploadOriginalCall rfl rfl
    True.intro True.intro
  omega

/-- C6 amended (pipeline step order): in every invocation the external
calls appear in strictly increasing stage order — the upload of the
original file, then rasterization, then the upload of the rasterized
image, then the provisional record write, then the feedback request,
then the final record write. -/
theorem c6_pipeline_order (env : Env) (inp : AnalyzeInput) :
    List.Pairwise (fun a b => eventStage a < eventStage b)
      (handleAnalyze env inp).events := by
  rcases env with ⟨uf, ⟨cf⟩, ui, kv1, fb, kv2, u⟩
  cases uf with
  | none => simp [handleAnalyze]
  | some uploadedFile =>
    cases cf with
    | none => simp [handleAnalyze, eventStage]
    | some blob =>
      cases ui with
      | none => simp [handleAnalyze, eventStage]
      | some uploadedImage =>
        cases fb with
        | none => simp [handleAnalyze, eventStage]
        | some fbv =>
          cases hx : extractFeedbackText fbv.message.content with
          | none => simp [handleAnalyze, hx, eventStage]
          | some t =>
            cases hp : parseJson t with
            | none => simp [handleAnalyze, hx, hp, eventStage]
            | some j => simp [handleAnalyze, hx, hp, eventStage]

/-- C7 counterexample: in an environment where the provisional KV write
reports failure via its return value, the pipeline does not report any
error — it proceeds to the feedback call and the final write exactly as
in the all-successful run, reports the success status, and navigates.
The store failure is silently swallowed, contradicting the claim that
it is propagated as a reported error. -/
theorem c7_counterexample :
    envKvFail.kvSetProvisionalResult = false
    ∧ (handleAnalyze envKvFail inpSample).statusText ∉ errorMessages
    ∧ (handleAnalyze envKvFail inpSample).statusText = "Analysis complete, redirecting..."
    ∧ (handleAnalyze envKvFail inpSample).navigatedTo = some "/resume/u1"
    ∧ (handleAnalyze envKvFail inpSample).events
      = (handleAnalyze envAllOk inpSample).events := by
  exact ⟨rfl, by decide, rfl, rfl, rfl⟩

/-- C7 amended: the orchestrator never inspects the provisional KV
write's success indicator — every observable outcome of the run
(status, processing flag, navigation, issued calls) is the same whether
that write reports success or failure, so a failure reported via the
return value is silently swallowed rather than propagated. -/
theorem c7_kv_result_ignored (env : Env) (inp : AnalyzeInput) (b1 b2 : Bool) :
    handleAnalyze { env with kvSetProvisionalResult := b1 } inp
      = handleAnalyze { env with kvSetProvisionalResult := b2 } inp := by
  rcases env with ⟨uf, cf, ui, kv1, fb, kv2, u⟩
  rfl

/-- C8 (parse failure is fatal but caught): when the pipeline reaches
the critique and the extracted text is not valid JSON, the thrown parse
error is caught by the top-level guard — the run ends with the generic
"something went wrong" status, performs no final record write (only the
provisional one is in the trace), hands no identifier to the caller,
and the flow terminates in a defined state rather than crashing. -/
theorem c8_parse_failure_caught (env : Env) (inp : AnalyzeInput)
    (uf img : UploadedFile) (blob : ImageBlob) (fb : FeedbackResp) (t : String)
    (h1 : env.fsUploadFileResult = some uf)
    (h2 : env.convertPdfToImageResult.file = some blob)
    (h3 : env.fsUploadImageResult = some img)
    (h4 : env.aiFeedbackResult = some fb)
    (h5 : extractFeedbackText fb.message.content = some t)
    (h6 : parseJson t = none) :
    (handleAnalyze env inp).statusText = "Error: Something went wrong during analysis"
    ∧ (handleAnalyze env inp).navigatedTo = none
    ∧ kvWrites (handleAnalyze env inp).events
      = [("resume:" ++ env.uuid, provRec env inp uf img)]
    ∧ (handleAnalyze env inp).isProcessing = false := by
  unfold handleAnalyze
  simp only [h1, h2, h3, h4, h5, h6]
  simp [kvWrites, provRec]

/-- Witness for C8 at a concrete environment whose critique text is not
valid JSON. -/
theorem c8_parse_failure_caught_witness :
    parseJson "not json" = none
    ∧ (handleAnalyze envBadJson inpSample).statusText
      = "Error: Something went wrong during analysis"
    ∧ (handleAnalyze envBadJson inpSample).navigatedTo = none
    ∧ kvWrites (handleAnalyze envBadJson inpSample).events
      = [("resume:u1", provRec envBadJson inpSample { path := "p1" } { path := "p2" })] := by
  have h := c8_parse_failure_caught envBadJson inpSample
    { path := "p1" } { path := "p2" } { blobName := "img" }
    { message := { content := MessageContent.str "not json" } }
    "not json" rfl rfl rfl rfl rfl rfl
  exact ⟨rfl, h.1, h.2.1, h.2.2.1⟩

/-- C9 (record invariant): any record ever written to the KV store with
non-null feedback carries the document references of a successful
original upload and a successful image upload — feedback is never
attached to a record missing either reference. -/
theorem c9_feedback_requires_paths (env : Env) (inp : AnalyzeInput)
    (k : String) (v : Record)
    (hmem : (k, v) ∈ kvWrites (handleAnalyze env inp).events)
    (hfb : v.feedback ≠ none) :
    ∃ uf img, env.fsUploadFileResult = some uf ∧ env.fsUploadImageResult = some img
      ∧ v.resumePath = uf.path ∧ v.imagePath = img.path := by
  rcases env with ⟨uf, ⟨cf⟩, ui, kv1, fb, kv2, u⟩
  cases uf with
  | none => simp [handleAnalyze, kvWrites] at hmem
  | some uploadedFile =>
    cases cf with
    | none => simp [handleAnalyze, kvWrites] at hmem
    | some blob =>
      cases ui with
      | none => simp [handleAnalyze, kvWrites] at hmem
      | some uploadedImage =>
        cases fb with
        | none =>
          simp [handleAnalyze, kvWrites] at hmem
          rcases hmem with ⟨hk, hv⟩
          subst hv
          simp at hfb
        | some fbv =>
          cases hx : extractFeedbackText fbv.message.content with
          | none =>
            simp [handleAnalyze, hx, kvWrites] at hmem
            rcases hmem with ⟨hk, hv⟩
            subst hv
            simp at hfb
          | some t =>
            cases hp : parseJson t with
            | none =>
              simp [handleAnalyze, hx, hp, kvWrites] at hmem
              rcases hmem with ⟨hk, hv⟩
              subst hv
              simp at hfb
            | some j =>
              simp [handleAnalyze, hx, hp, kvWrites] at hmem
              rcases hmem with ⟨hk, hv⟩ | ⟨hk, hv⟩
              · subst hv
                simp at hfb
              · subst hv
                exact ⟨uploadedFile, uploadedImage, rfl, rfl, rfl, rfl⟩

/-- Witness for C9: the final record of the successful sample run has
non-null feedback and carries both uploaded paths. -/
theorem c9_feedback_requires_paths_witness :
    ∃ uf img, envAllOk.fsUploadFileResult = some uf
      ∧ envAllOk.fsUploadImageResult = some img
      ∧ finalRecSample.resumePath = uf.path ∧ finalRecSample.imagePath = img.path :=
  c9_feedback_requires_paths envAllOk inpSample "resume:u1" finalRecSample
    (List.Mem.tail _ (List.Mem.head _)) (fun h => Option.noConfusion h)

/-- C10 (processing flag discipline): every failing run (no navigation)
ends with the processing flag reset to false — so the form is
submittable again for a manual retry — while the status text holds one
of the pipeline's error messages; a successful run navigates with the
processing flag still true (never reset before navigation). -/
theorem c10_processing_flag (env : Env) (inp : AnalyzeInput) :
    ((handleAnalyze env inp).navigatedTo = none →
      (handleAnalyze env inp).isProcessing = false
      ∧ (handleAnalyze env inp).statusText ∈ errorMessages)
    ∧ ((handleAnalyze env inp).navigatedTo ≠ none →
      (handleAnalyze env inp).isProcessing = true
      ∧ (handleAnalyze env inp).statusText = "Analysis complete, redirecting...") := by
  rcases env with ⟨uf, ⟨cf⟩, ui, kv1, fb, kv2, u⟩
  cases uf with
  | none => simp [handleAnalyze, errorMessages]
  | some uploadedFile =>
    cases cf with
    | none => simp [handleAnalyze, errorMessages]
    | some blob =>
      cases ui with
      | none => simp [handleAnalyze, errorMessages]
      | some uploadedImage =>
        cases fb with
        | none => simp [handleAnalyze, errorMessages]
        | some fbv =>
          cases hx : extractFeedbackText fbv.message.content with
          | none => simp [handleAnalyze, hx, errorMessages]
          | some t =>
            cases hp : parseJson t with
            | none => simp [handleAnalyze, hx, hp, errorMessages]
            | some j => simp [handleAnalyze, hx, hp]

/-- Witness for C10: the upload-failure run has the flag reset with an
error status retained; the successful run navigates with the flag still
set. -/
theorem c10_processing_flag_witness :
    ((handleAnalyze envUploadFail inpSample).isProcessing = false
      ∧ (handleAnalyze envUploadFail inpSample).statusText ∈ errorMessages)
    ∧ ((handleAnalyze envAllOk inpSample).isProcessing = true
      ∧ (handleAnalyze envAllOk inpSample).statusText
        = "Analysis complete, redirecting...") :=
  ⟨(c10_processing_flag envUploadFail inpSample).1 rfl,
   (c10_processing_flag envAllOk inpSample).2 (fun h => Option.noConfusion h)⟩
